import Mathlib

/-!
# Verification of the EHR patient-record service

Shallow embedding of the Express/Mongoose application in `server.js`
(schema `patientSchema`, model `Patient`, and the five route handlers).

Modelling conventions:
* A Mongo document id is a `Nat`; `Date` timestamps are `Nat` milliseconds.
* JS numbers are `Rat` (the schema stores `age`, `vitals.heartRate`,
  `vitals.temperature` as `Number`; `36.5` is exactly representable).
* A form body (`req.body`) is a record of `Option` fields: `none` means the
  field is absent from the body, `some v` means it was supplied with value `v`.
* Mongoose `required` on a `String` path fails when the value is absent or is
  the empty string (`SchemaString.checkRequired` tests `value.length`); the
  `trim: true` setter runs before validation, so whitespace-only input fails.
* Mongoose `enum` validation passes when the path is absent and otherwise
  requires membership in the enumerated list.
* The search filter `new RegExp(req.query.search, 'i')` is modelled on the
  regex fragment the theorems exercise: patterns built from literal
  characters and the metacharacter `.` (any character except a line
  terminator), matched unanchored and ASCII-case-insensitively, which is the
  behaviour of the `i` flag on this fragment.
-/

/-- The enumerated `department` values of `patientSchema`. -/
def departments : List String :=
  ["Emergency", "ICU", "Cardiology", "Pediatrics", "Neurology", "General Ward"]

/-- The enumerated `status` values of `patientSchema`. -/
def statuses : List String :=
  ["Admitted", "Discharged", "Critical", "Outpatient", "Recovery"]

/-- The embedded `vitals` subdocument of `patientSchema`. -/
structure Vitals where
  heartRate : Rat
  bloodPressure : String
  temperature : Rat
deriving DecidableEq, Repr

/-- A stored `Patient` document as defined by `patientSchema`. -/
structure Patient where
  id : Nat
  fullName : String
  age : Rat
  condition : String
  department : String
  status : String
  vitals : Vitals
  roomNumber : String
  notes : Option String
  admissionDate : Nat
deriving DecidableEq, Repr

/-- A parsed form body (`req.body`): every schema path, each optional. -/
structure PatientInput where
  fullName : Option String := none
  age : Option Rat := none
  condition : Option String := none
  department : Option String := none
  status : Option String := none
  heartRate : Option Rat := none
  bloodPressure : Option String := none
  temperature : Option Rat := none
  roomNumber : Option String := none
  notes : Option String := none
  admissionDate : Option Nat := none
deriving DecidableEq, Repr

/-- The JS whitespace class used by `String.prototype.trim` (the common
members: ASCII whitespace, NBSP, the line separators, and the BOM). -/
def isJsSpace (c : Char) : Bool :=
  c == ' ' || c == '\t' || c == '\n' || c == '\r' || c == '\x0b' ||
  c == '\x0c' || c == '\u00a0' || c == '\u2028' || c == '\u2029' || c == '\ufeff'

/-- Drop the leading whitespace of a character list. -/
def dropSpaces : List Char → List Char
  | [] => []
  | c :: cs => if isJsSpace c then dropSpaces cs else c :: cs

/-- JS `String.prototype.trim`, the setter Mongoose applies on paths declared
with `trim: true`: strip leading and trailing whitespace. -/
def jsTrim (s : String) : String :=
  ⟨(dropSpaces (dropSpaces s.data.reverse).reverse)⟩

/-- Mongoose validation run by `Patient.create`: `required` on `fullName`
(after the `trim` setter), `age`, `condition`, and `enum` on any supplied
`department`/`status`. -/
def validCreate (c : PatientInput) : Bool :=
  (match c.fullName with
   | none => false
   | some s => jsTrim s ≠ "") &&
  c.age.isSome &&
  (match c.condition with
   | none => false
   | some s => s ≠ "") &&
  (match c.department with
   | none => true
   | some d => departments.contains d) &&
  (match c.status with
   | none => true
   | some st => statuses.contains st)

/-- The document built by `Patient.create` from a valid body: supplied fields
(strings with `trim: true` trimmed), schema defaults for omitted ones,
`admissionDate` defaulting to `Date.now` (`now`), and a fresh id. -/
def newPatient (c : PatientInput) (id now : Nat) : Patient :=
  { id := id
    fullName := jsTrim (c.fullName.getD "")
    age := c.age.getD 0
    condition := c.condition.getD ""
    department := c.department.getD "General Ward"
    status := c.status.getD "Admitted"
    vitals :=
      { heartRate := c.heartRate.getD 0
        bloodPressure := c.bloodPressure.getD "N/A"
        temperature := c.temperature.getD (365/10 : Rat) }
    roomNumber := c.roomNumber.getD "TBA"
    notes := c.notes.map jsTrim
    admissionDate := c.admissionDate.getD now }

/-- The redirect target a handler responds with. -/
inductive Redirect where
  /-- `res.redirect('/')` -/
  | home : Redirect
  /-- `res.redirect('/?error=Failed to add patient')` -/
  | homeWithError : Redirect
  /-- `res.redirect('/edit/' + id)` -/
  | editView : Nat → Redirect
deriving DecidableEq, Repr

/-- `POST /add`: `Patient.create(req.body)` then redirect `/`; on a
validation error nothing is persisted and the handler redirects
`/?error=Failed to add patient`. Returns the new collection and redirect. -/
def addHandler (db : List Patient) (c : PatientInput) (id now : Nat) :
    List Patient × Redirect :=
  if validCreate c then (db ++ [newPatient c id now], Redirect.home)
  else (db, Redirect.homeWithError)

/-- A regex token of the modelled fragment: a literal character or `.`. -/
inductive RTok where
  | lit : Char → RTok
  | dot : RTok
deriving DecidableEq, Repr

/-- The characters that are special in a JS regular expression. -/
def isRegexMeta (c : Char) : Bool :=
  c == '^' || c == '$' || c == '\\' || c == '.' || c == '*' || c == '+' ||
  c == '?' || c == '(' || c == ')' || c == '[' || c == ']' ||
  c == '\x7b' || c == '\x7d' || c == '|'

/-- Compile one pattern character: `.` becomes the wildcard, anything else a
literal. Faithful for patterns whose only metacharacter is `.`. -/
def compileChar (c : Char) : RTok :=
  if c == '.' then RTok.dot else RTok.lit c

/-- `new RegExp(search, 'i')`: the token list of the pattern. -/
def compileSearch (s : String) : List RTok :=
  s.data.map compileChar

/-- Does a token match one subject character?  A literal compares
case-insensitively (the `i` flag); `.` matches anything but a line
terminator. -/
def tokMatches (t : RTok) (c : Char) : Bool :=
  match t with
  | RTok.lit l => l.toLower == c.toLower
  | RTok.dot => !(c == '\n' || c == '\r' || c == '\u2028' || c == '\u2029')

/-- Match the whole token list at the head of the subject. -/
def matchAt : List RTok → List Char → Bool
  | [], _ => true
  | _ :: _, [] => false
  | t :: ts, c :: cs => tokMatches t c && matchAt ts cs

/-- Unanchored regex test (`regex.test(field)`): try every start position. -/
def regexTest (ts : List RTok) : List Char → Bool
  | [] => matchAt ts []
  | c :: cs => matchAt ts (c :: cs) || regexTest ts cs

/-- The `$or` search condition of the `GET /` handler: the compiled pattern
tested against `fullName`, `condition` and `roomNumber`. -/
def searchAccepts (s : String) (p : Patient) : Bool :=
  regexTest (compileSearch s) p.fullName.data ||
  regexTest (compileSearch s) p.condition.data ||
  regexTest (compileSearch s) p.roomNumber.data

/-- The filter document built by `GET /`: the search `$or` is added only when
`req.query.search` is truthy (present and non-empty), the department equality
only when `req.query.department` is truthy and not `'All'`; both conditions
combine conjunctively. -/
def queryPred (search dept : Option String) (p : Patient) : Bool :=
  (match search with
   | none => true
   | some s => if s = "" then true else searchAccepts s p) &&
  (match dept with
   | none => true
   | some d => if d = "" ∨ d = "All" then true else p.department == d)

/-- `sort({ admissionDate: -1 })`: newest admission first. -/
def admAfter (a b : Patient) : Prop :=
  b.admissionDate ≤ a.admissionDate

instance : DecidableRel admAfter := fun a b =>
  inferInstanceAs (Decidable (b.admissionDate ≤ a.admissionDate))

instance : IsTotal Patient admAfter :=
  ⟨fun a b => Nat.le_total b.admissionDate a.admissionDate⟩

instance : IsTrans Patient admAfter :=
  ⟨fun _ _ _ h h' => Nat.le_trans h' h⟩

/-- The fetched, sorted result of `Patient.find(query).sort({admissionDate: -1})`. -/
def sortDesc (ps : List Patient) : List Patient :=
  ps.insertionSort admAfter

/-- The four view-scoped analytics counts of the `GET /` handler. -/
structure Stats where
  total : Nat
  critical : Nat
  icu : Nat
  admitted : Nat
deriving DecidableEq, Repr

/-- `stats` as computed in `GET /`, over the fetched `patients` array. -/
def computeStats (ps : List Patient) : Stats :=
  { total := ps.length
    critical := (ps.filter (fun p => p.status == "Critical")).length
    icu := (ps.filter (fun p => p.department == "ICU")).length
    admitted := (ps.filter (fun p => p.status == "Admitted")).length }

/-- What `GET /` passes to the rendered view. -/
structure ListResult where
  patients : List Patient
  search : Option String
  currentDept : String
  stats : Stats
deriving DecidableEq, Repr

/-- The `GET /` handler: build the filter, fetch matching records sorted by
`admissionDate` descending, compute stats on the fetched set, echo the filter
state (`req.query.department || 'All'`). -/
def getHandler (db : List Patient) (search dept : Option String) : ListResult :=
  let matched := (db.filter (queryPred search dept))
  let fetched := sortDesc matched
  { patients := fetched
    search := search
    currentDept :=
      match dept with
      | none => "All"
      | some d => if d = "" then "All" else d
    stats := computeStats fetched }

/-- Mongoose update validation (`runValidators: true` on
`findByIdAndUpdate`): validators run only on the paths present in the update
body. -/
def validUpdate (u : PatientInput) : Bool :=
  (match u.fullName with
   | none => true
   | some s => jsTrim s ≠ "") &&
  (match u.condition with
   | none => true
   | some s => s ≠ "") &&
  (match u.department with
   | none => true
   | some d => departments.contains d) &&
  (match u.status with
   | none => true
   | some st => statuses.contains st)

/-- Apply an update body to a stored document: supplied paths are replaced
(strings with `trim: true` trimmed), unsupplied paths keep their prior
values; the id is immutable. -/
def applyUpdate (p : Patient) (u : PatientInput) : Patient :=
  { id := p.id
    fullName := match u.fullName with | none => p.fullName | some s => jsTrim s
    age := u.age.getD p.age
    condition := u.condition.getD p.condition
    department := u.department.getD p.department
    status := u.status.getD p.status
    vitals :=
      { heartRate := u.heartRate.getD p.vitals.heartRate
        bloodPressure := u.bloodPressure.getD p.vitals.bloodPressure
        temperature := u.temperature.getD p.vitals.temperature }
    roomNumber := u.roomNumber.getD p.roomNumber
    notes := match u.notes with | none => p.notes | some s => some (jsTrim s)
    admissionDate := u.admissionDate.getD p.admissionDate }

/-- `POST /edit/:id`: `findByIdAndUpdate(id, req.body, {runValidators:true})`.
Validation runs before any write, so a failing update changes nothing and the
handler redirects back to `/edit/:id`; otherwise the matching document is
replaced in place and the handler redirects `/`. -/
def updateHandler (db : List Patient) (id : Nat) (u : PatientInput) :
    List Patient × Redirect :=
  if validUpdate u then
    (db.map (fun p => if p.id = id then applyUpdate p u else p), Redirect.home)
  else (db, Redirect.editView id)

/-- `POST /delete/:id`: `findByIdAndDelete(id)` removes the matching document
if any (absent ids are a no-op, not an error), and the handler redirects `/`
on both the success and the catch path. -/
def deleteHandler (db : List Patient) (id : Nat) : List Patient × Redirect :=
  (db.filter (fun p => p.id ≠ id), Redirect.home)

/-- `GET /edit/:id`: `findById`, rendering the edit view when found and
redirecting `/` otherwise. -/
def editGetHandler (db : List Patient) (id : Nat) : Option Patient :=
  db.find? (fun p => p.id = id)

/-- Case-insensitive literal substring containment, stated from the spec's
words for the search contract: `needle` occurs in `hay` after lowercasing
both. Compared against the code's regex behaviour in the search theorems. -/
def leads : List Char → List Char → Bool
  | [], _ => true
  | _ :: _, [] => false
  | a :: as, b :: bs => a == b && leads as bs

/-- Does `needle` occur as a contiguous run somewhere in `hay`? -/
def occursIn (needle : List Char) : List Char → Bool
  | [] => leads needle []
  | c :: cs => leads needle (c :: cs) || occursIn needle cs

/-- Spec-side predicate: `needle` is a case-insensitive substring of `hay`. -/
def ciSubstr (needle hay : String) : Bool :=
  occursIn (needle.data.map Char.toLower) (hay.data.map Char.toLower)

/-! ## Shared helper lemmas -/

lemma contains_eq_false_of_not_mem (l : List String) (a : String) (h : a ∉ l) :
    l.contains a = false := by
  simpa using h

lemma length_filter_add_length_filter_le (l : List Patient) (p q : Patient → Bool)
    (h : ∀ x, p x = true → q x = false) :
    (l.filter p).length + (l.filter q).length ≤ l.length := by
  induction l with
  | nil => simp
  | cons a l ih =>
    cases hp : p a with
    | true =>
      have hq := h a hp
      simp [List.filter_cons, hp, hq]
      omega
    | false =>
      cases hq : q a with
      | true => simp [List.filter_cons, hp, hq]; omega
      | false => simp [List.filter_cons, hp, hq]; omega

/-! ## C1 -/

/-- C1: whenever the form body has `fullName` missing, empty or
whitespace-only, or `age` missing, or `condition` missing, or a supplied
`department`/`status` outside its enumerated set, `POST /add` fails
validation: the stored collection is unchanged and the handler redirects to
the error URL. -/
theorem create_invalid_is_rejected (db : List Patient) (c : PatientInput) (id now : Nat)
    (h : c.fullName = none ∨ (∃ s, c.fullName = some s ∧ jsTrim s = "") ∨
      c.age = none ∨ c.condition = none ∨
      (∃ d, c.department = some d ∧ d ∉ departments) ∨
      (∃ st, c.status = some st ∧ st ∉ statuses)) :
    addHandler db c id now = (db, Redirect.homeWithError) := by
  have hv : validCreate c = false := by
    unfold validCreate
    rcases h with h | h | h | h | h | h
    · simp [h]
    · obtain ⟨s, hs, hs'⟩ := h
      simp [hs, hs']
    · simp [h]
    · simp [h]
    · obtain ⟨d, hd, hd'⟩ := h
      simp [hd, hd']
    · obtain ⟨st, hst, hst'⟩ := h
      simp [hst, hst']
  simp [addHandler, hv]

/-- Witness for C1 at a whitespace-only `fullName`. -/
theorem create_invalid_is_rejected_witness :
    addHandler [] { fullName := some "   ", age := some 30, condition := some "flu" } 1 100 =
      ([], Redirect.homeWithError) :=
  create_invalid_is_rejected [] _ 1 100 (Or.inr (Or.inl ⟨"   ", rfl, by decide⟩))

/-! ## C9 -/

/-- C9: a `POST /edit/:id` whose body fails validation performs no write at
all — `runValidators` rejects the update before anything is stored, the
collection is returned unchanged, and the handler redirects back to the edit
view for the same id. -/
theorem update_invalid_is_atomic (db : List Patient) (id : Nat) (u : PatientInput)
    (h : validUpdate u = false) :
    updateHandler db id u = (db, Redirect.editView id) := by
  simp [updateHandler, h]

/-- Witness for C9 at an out-of-enum `department`. -/
theorem update_invalid_is_atomic_witness :
    updateHandler [] 7 { department := some "Radiology" } = ([], Redirect.editView 7) :=
  update_invalid_is_atomic [] 7 _ (by decide)

/-! ## C7 -/

/-- An update body supplying only a new `roomNumber`. -/
def roomOnly (room : String) : PatientInput :=
  { roomNumber := some room }

/-- C7: updating an existing record with a body that only supplies
`roomNumber` rewrites exactly that field of the matching record — every other
field, the id included, is untouched, and every other record is unchanged;
and in general any unsupplied field keeps its prior value under
`applyUpdate`. -/
theorem update_roomNumber_only_frame (db : List Patient) (id : Nat) (room : String) :
    updateHandler db id (roomOnly room) =
      (db.map (fun p => if p.id = id then { p with roomNumber := room } else p),
        Redirect.home) ∧
    ∀ (u : PatientInput) (p : Patient),
      (applyUpdate p u).id = p.id ∧
      (u.fullName = none → (applyUpdate p u).fullName = p.fullName) ∧
      (u.age = none → (applyUpdate p u).age = p.age) ∧
      (u.condition = none → (applyUpdate p u).condition = p.condition) ∧
      (u.department = none → (applyUpdate p u).department = p.department) ∧
      (u.status = none → (applyUpdate p u).status = p.status) ∧
      (u.heartRate = none → (applyUpdate p u).vitals.heartRate = p.vitals.heartRate) ∧
      (u.bloodPressure = none →
        (applyUpdate p u).vitals.bloodPressure = p.vitals.bloodPressure) ∧
      (u.temperature = none → (applyUpdate p u).vitals.temperature = p.vitals.temperature) ∧
      (u.notes = none → (applyUpdate p u).notes = p.notes) ∧
      (u.admissionDate = none → (applyUpdate p u).admissionDate = p.admissionDate) := by
  constructor
  · rfl
  · intro u p
    refine ⟨rfl, ?_, ?_, ?_, ?_, ?_, ?_, ?_, ?_, ?_, ?_⟩ <;>
      (intro h; simp [applyUpdate, h])

/-- A concrete stored record used by witnesses. -/
def pSam : Patient :=
  { id := 1, fullName := "Sam Poe", age := 44, condition := "flu",
    department := "ICU", status := "Admitted",
    vitals := { heartRate := 80, bloodPressure := "120/80", temperature := 37 },
    roomNumber := "101", notes := none, admissionDate := 10 }

/-- Witness for C7: a concrete roomNumber-only update. -/
theorem update_roomNumber_only_frame_witness :
    updateHandler [pSam] 1 (roomOnly "205") =
      ([{ pSam with roomNumber := "205" }], Redirect.home) ∧
    (applyUpdate pSam (roomOnly "205")).fullName = pSam.fullName := by
  obtain ⟨h1, h2⟩ := update_roomNumber_only_frame [pSam] 1 "205"
  exact ⟨h1.trans (by decide), (h2 (roomOnly "205") pSam).2.1 rfl⟩

/-! ## C8 -/

/-- C8: `POST /delete/:id` removes the record with the given id (no record
with that id appears in any subsequent `GET /` view), deleting the same id a
second time is a harmless no-op rather than an error, and the handler always
responds with the redirect to the list view. -/
theorem delete_removes_and_redirects (db : List Patient) (id : Nat) :
    (∀ sd dd : Option String, ∀ q ∈ (getHandler (deleteHandler db id).1 sd dd).patients,
      q.id ≠ id) ∧
    deleteHandler (deleteHandler db id).1 id = deleteHandler db id ∧
    (deleteHandler db id).2 = Redirect.home := by
  refine ⟨?_, ?_, rfl⟩
  · intro sd dd q hq
    simp only [getHandler, sortDesc] at hq
    have hq2 := (List.perm_insertionSort admAfter _).mem_iff.mp hq
    have hq3 := (List.mem_filter.mp hq2).1
    simp only [deleteHandler] at hq3
    have := (List.mem_filter.mp hq3).2
    simpa using this
  · simp [deleteHandler, List.filter_filter]

/-- A second concrete stored record used by witnesses. -/
def pTwo : Patient :=
  { id := 2, fullName := "Ada Two", age := 30, condition := "ok",
    department := "Cardiology", status := "Recovery",
    vitals := { heartRate := 60, bloodPressure := "110/70", temperature := 36 },
    roomNumber := "B2", notes := some "fine", admissionDate := 20 }

/-- Witness for C8 on a concrete two-record collection. -/
theorem delete_removes_and_redirects_witness :
    pTwo.id ≠ 1 ∧
    deleteHandler (deleteHandler [pSam, pTwo] 1).1 1 = deleteHandler [pSam, pTwo] 1 ∧
    (deleteHandler [pSam, pTwo] 1).2 = Redirect.home := by
  obtain ⟨h1, h2, h3⟩ := delete_removes_and_redirects [pSam, pTwo] 1
  exact ⟨h1 none none pTwo (by decide), h2, h3⟩

/-! ## C10 -/

/-- C10: on every result set the view-scoped stats satisfy
`critical ≤ total`, `icu ≤ total`, `admitted ≤ total`, and — because one
`status` field cannot be both `"Critical"` and `"Admitted"` —
`critical + admitted ≤ total`. -/
theorem stats_bounds (ps : List Patient) :
    (computeStats ps).critical ≤ (computeStats ps).total ∧
    (computeStats ps).icu ≤ (computeStats ps).total ∧
    (computeStats ps).admitted ≤ (computeStats ps).total ∧
    (computeStats ps).critical + (computeStats ps).admitted ≤ (computeStats ps).total := by
  refine ⟨List.length_filter_le _ _, List.length_filter_le _ _,
    List.length_filter_le _ _, ?_⟩
  apply length_filter_add_length_filter_le
  intro x hx
  have : x.status = "Critical" := by simpa using hx
  simp [this]

/-! ## C5 -/

/-- C5: the stats block of every `GET /` response is computed over the
(possibly filtered) result set of that very request — `total` is the number
of matching records, `critical`/`icu`/`admitted` count the matching records
with status `"Critical"`, department `"ICU"`, status `"Admitted"` — and it
coincides with `computeStats` of the rendered record list. -/
theorem stats_view_scoped (db : List Patient) (search dept : Option String) :
    (getHandler db search dept).stats.total = (db.filter (queryPred search dept)).length ∧
    (getHandler db search dept).stats.critical =
      (db.filter (queryPred search dept)).countP (fun p => p.status == "Critical") ∧
    (getHandler db search dept).stats.icu =
      (db.filter (queryPred search dept)).countP (fun p => p.department == "ICU") ∧
    (getHandler db search dept).stats.admitted =
      (db.filter (queryPred search dept)).countP (fun p => p.status == "Admitted") ∧
    (getHandler db search dept).stats = computeStats (getHandler db search dept).patients := by
  have hperm : (sortDesc (db.filter (queryPred search dept))).Perm
      (db.filter (queryPred search dept)) :=
    List.perm_insertionSort _ _
  refine ⟨hperm.length_eq, ?_, ?_, ?_, rfl⟩ <;>
    simp only [getHandler, computeStats, ← List.countP_eq_length_filter]
  · exact hperm.countP_eq _
  · exact hperm.countP_eq _
  · exact hperm.countP_eq _

/-! ## C6 -/

/-- C6: on a collection whose admission timestamps are pairwise distinct, the
unfiltered `GET /` view is a permutation of the collection arranged in
strictly descending admission order — the most recently admitted record
first. -/
theorem list_sorted_newest_first (db : List Patient)
    (hd : db.Pairwise (fun a b => a.admissionDate ≠ b.admissionDate)) :
    (getHandler db none none).patients.Perm db ∧
    (getHandler db none none).patients.Pairwise
      (fun a b => b.admissionDate < a.admissionDate) := by
  have hfilter : db.filter (queryPred none none) = db :=
    List.filter_eq_self.mpr (fun a _ => rfl)
  have hperm : (getHandler db none none).patients.Perm db := by
    show (sortDesc (db.filter (queryPred none none))).Perm db
    rw [hfilter]
    exact List.perm_insertionSort _ _
  refine ⟨hperm, ?_⟩
  have hsorted : (getHandler db none none).patients.Pairwise admAfter := by
    show List.Pairwise admAfter (sortDesc (db.filter (queryPred none none)))
    rw [hfilter]
    exact List.sorted_insertionSort admAfter db
  have hne : (getHandler db none none).patients.Pairwise
      (fun a b => a.admissionDate ≠ b.admissionDate) :=
    (hperm.pairwise_iff (fun h => h.symm)).mpr hd
  exact (hsorted.and hne).imp
    (fun h => Nat.lt_of_le_of_ne h.1 (Ne.symm h.2))

/-- A third concrete stored record used by witnesses. -/
def pThree : Patient :=
  { id := 3, fullName := "Kim West", age := 51, condition := "burn",
    department := "Emergency", status := "Critical",
    vitals := { heartRate := 95, bloodPressure := "130/85", temperature := 38 },
    roomNumber := "C3", notes := none, admissionDate := 30 }

/-- Witness for C6 on three records admitted at times 10 < 20 < 30. -/
theorem list_sorted_newest_first_witness :
    (getHandler [pSam, pTwo, pThree] none none).patients.Perm [pSam, pTwo, pThree] ∧
    (getHandler [pSam, pTwo, pThree] none none).patients.Pairwise
      (fun a b => b.admissionDate < a.admissionDate) :=
  list_sorted_newest_first [pSam, pTwo, pThree] (by decide)

/-! ## C4 -/

/-- Counterexample to C4 as stated: `department` supplied as the empty string
is present and not `"All"`, and is not in the enumerated set, yet the code's
truthiness test skips the filter entirely — a record in `"ICU"` still
matches and the list is not empty. -/
theorem department_empty_string_matches :
    queryPred none (some "") pSam = true ∧ pSam.department ≠ "" ∧ "" ∉ departments ∧
    (getHandler [pSam] none (some "")).patients = [pSam] := by decide

/-- C4 (amended): when `department` is supplied non-empty and differs from
the sentinel `"All"`, the filter is the search condition AND exact equality
on `department`; with no search and `department` absent, `"All"` or empty,
everything matches; a non-empty unrecognized department (distinct from
`"All"`) matches no record whose department is in the enumerated set. -/
theorem department_filter_semantics :
    (∀ (s : Option String) (d : String) (p : Patient), d ≠ "" → d ≠ "All" →
      queryPred s (some d) p = (queryPred s none p && (p.department == d))) ∧
    (∀ p : Patient, queryPred none none p = true ∧
      queryPred none (some "All") p = true ∧ queryPred none (some "") p = true) ∧
    (∀ (s : Option String) (d : String) (p : Patient),
      d ≠ "" → d ≠ "All" → d ∉ departments → p.department ∈ departments →
      queryPred s (some d) p = false) := by
  refine ⟨?_, ?_, ?_⟩
  · intro s d p hne hall
    simp [queryPred, hne, hall]
  · intro p
    refine ⟨rfl, ?_, rfl⟩
    simp [queryPred]
  · intro s d p hne hall hd hp
    have hb : (p.department == d) = false := by
      simp only [beq_eq_false_iff_ne, ne_eq]
      intro he
      exact hd (he ▸ hp)
    simp [queryPred, hne, hall, hb]

/-- Witness for C4 instantiating all three amended conjuncts. -/
theorem department_filter_semantics_witness :
    queryPred none (some "Cardiology") pTwo =
      (queryPred none none pTwo && (pTwo.department == "Cardiology")) ∧
    queryPred none (some "All") pSam = true ∧
    queryPred none (some "Radiology") pSam = false := by
  obtain ⟨h1, h2, h3⟩ := department_filter_semantics
  exact ⟨h1 none "Cardiology" pTwo (by decide) (by decide),
    (h2 pSam).2.1,
    h3 none "Radiology" pSam (by decide) (by decide) (by decide) (by decide)⟩

/-! ## C2 -/

/-- A form body that is "valid" in the words of C2 (`fullName` non-empty
after trimming, `age` and `condition` present) but whose `condition` is the
empty string. -/
def cNoCond : PatientInput :=
  { fullName := some "John Smith", age := some 30, condition := some "" }

/-- Counterexample to C2 as stated: `condition` supplied as the empty string
is present, yet Mongoose's `required` check on a `String` path rejects empty
strings, so `POST /add` persists nothing and redirects with the error flag
instead of succeeding. -/
theorem create_empty_condition_rejected :
    addHandler [] cNoCond 1 5 = ([], Redirect.homeWithError) := by decide

/-- C2 (amended): for a candidate with `fullName` non-empty after trimming,
`age` present, `condition` present and non-empty, and any supplied
`department`/`status` inside its enumerated set, `POST /add` succeeds
(appending exactly the document `newPatient` and redirecting to the list
view), every omitted optional field receives its documented default
(`General Ward`, `Admitted`, heart rate `0`, blood pressure `"N/A"`,
temperature `36.5`, room `"TBA"`, admission date = creation time), and the
subsequent unfiltered `GET /` view contains exactly one record carrying the
fresh id — the new document — while the other records are exactly the prior
collection. -/
theorem create_valid_persists (db : List Patient) (c : PatientInput) (id now : Nat)
    (hid : ∀ p ∈ db, p.id ≠ id)
    (hname : ∃ s, c.fullName = some s ∧ jsTrim s ≠ "")
    (hage : c.age.isSome = true)
    (hcond : ∃ s, c.condition = some s ∧ s ≠ "")
    (hdept : ∀ d, c.department = some d → d ∈ departments)
    (hstat : ∀ st, c.status = some st → st ∈ statuses) :
    addHandler db c id now = (db ++ [newPatient c id now], Redirect.home) ∧
    (c.department = none → (newPatient c id now).department = "General Ward") ∧
    (c.status = none → (newPatient c id now).status = "Admitted") ∧
    (c.heartRate = none → (newPatient c id now).vitals.heartRate = 0) ∧
    (c.bloodPressure = none → (newPatient c id now).vitals.bloodPressure = "N/A") ∧
    (c.temperature = none → (newPatient c id now).vitals.temperature = 365/10) ∧
    (c.roomNumber = none → (newPatient c id now).roomNumber = "TBA") ∧
    (c.admissionDate = none → (newPatient c id now).admissionDate = now) ∧
    (getHandler (db ++ [newPatient c id now]) none none).patients.countP
      (fun p => p.id == id) = 1 ∧
    newPatient c id now ∈ (getHandler (db ++ [newPatient c id now]) none none).patients ∧
    ((getHandler (db ++ [newPatient c id now]) none none).patients.filter
      (fun p => p.id != id)).Perm db := by
  obtain ⟨s, hs, hs'⟩ := hname
  obtain ⟨t, ht, ht'⟩ := hcond
  have hd' : (match c.department with
      | none => true
      | some d => departments.contains d) = true := by
    cases hdc : c.department with
    | none => rfl
    | some d => simpa using hdept d hdc
  have hst' : (match c.status with
      | none => true
      | some st => statuses.contains st) = true := by
    cases hstc : c.status with
    | none => rfl
    | some st => simpa using hstat st hstc
  have hv : validCreate c = true := by
    unfold validCreate
    simp [hs, hs', hage, ht, ht']
    exact ⟨by simpa using hd', by simpa using hst'⟩
  have hq : (db ++ [newPatient c id now]).filter (queryPred none none) =
      db ++ [newPatient c id now] :=
    List.filter_eq_self.mpr (fun a _ => rfl)
  have hperm : (getHandler (db ++ [newPatient c id now]) none none).patients.Perm
      (db ++ [newPatient c id now]) := by
    show (sortDesc ((db ++ [newPatient c id now]).filter (queryPred none none))).Perm _
    rw [hq]
    exact List.perm_insertionSort _ _
  refine ⟨by simp [addHandler, hv], fun h => by simp [newPatient, h],
    fun h => by simp [newPatient, h], fun h => by simp [newPatient, h],
    fun h => by simp [newPatient, h], fun h => by simp [newPatient, h],
    fun h => by simp [newPatient, h], fun h => by simp [newPatient, h],
    ?_, ?_, ?_⟩
  · rw [hperm.countP_eq, List.countP_append]
    have h0 : db.countP (fun p => p.id == id) = 0 :=
      List.countP_eq_zero.mpr (fun a ha => by simpa using hid a ha)
    have h1 : (newPatient c id now).id = id := rfl
    simp [h0, List.countP_cons, h1]
  · exact hperm.mem_iff.mpr (by simp)
  · have h1 := hperm.filter (fun p => p.id != id)
    have h2 : (db ++ [newPatient c id now]).filter (fun p => p.id != id) = db := by
      rw [List.filter_append]
      have hdb : db.filter (fun p => p.id != id) = db :=
        List.filter_eq_self.mpr (fun a ha => by simpa using hid a ha)
      have hnew : ([newPatient c id now].filter (fun p => p.id != id)) = [] := by
        simp [List.filter_cons]
        rfl
      simp [hdb, hnew]
    rw [h2] at h1
    exact h1

/-- The concrete valid body of the C2 witness. -/
def cJohn : PatientInput :=
  { fullName := some " John Smith ", age := some 30, condition := some "flu" }

/-- Witness for C2: a concrete create followed by a concrete list. -/
theorem create_valid_persists_witness :
    addHandler [pSam] cJohn 9 99 = ([pSam] ++ [newPatient cJohn 9 99], Redirect.home) ∧
    (newPatient cJohn 9 99).status = "Admitted" ∧
    (getHandler ([pSam] ++ [newPatient cJohn 9 99]) none none).patients.countP
      (fun p => p.id == 9) = 1 := by
  obtain ⟨h1, _, h2, _, _, _, _, _, h3, _, _⟩ :=
    create_valid_persists [pSam] cJohn 9 99 (by decide)
      ⟨" John Smith ", rfl, by decide⟩ rfl ⟨"flu", rfl, by decide⟩
      (fun d h => nomatch h) (fun st h => nomatch h)
  exact ⟨h1, h2 rfl, h3⟩

/-! ## C3 -/

lemma ofNat_shift_ne_dot (m : Nat) (h1 : 97 ≤ m) (h2 : m ≤ 122) :
    Char.ofNat m ≠ '.' := by
  interval_cases m <;> decide

lemma toLower_eq_dot_iff (c : Char) : c.toLower = '.' ↔ c = '.' := by
  constructor
  · intro h
    simp only [Char.toLower] at h
    split at h
    · next hc => exact absurd h (ofNat_shift_ne_dot _ (by omega) (by omega))
    · exact h
  · intro h
    subst h
    decide

lemma compileChar_congr (a b : Char) (h : a.toLower = b.toLower) (c : Char) :
    tokMatches (compileChar a) c = tokMatches (compileChar b) c := by
  by_cases ha : a = '.'
  · have hb : b = '.' := (toLower_eq_dot_iff b).mp (by rw [← h, ha]; decide)
    rw [ha, hb]
  · have hb : b ≠ '.' := fun hbe =>
      ha ((toLower_eq_dot_iff a).mp (by rw [h, hbe]; decide))
    simp [compileChar, ha, hb, tokMatches, h]

lemma matchAt_congr (ls lt : List Char) (h : ls.map Char.toLower = lt.map Char.toLower) :
    ∀ cs, matchAt (ls.map compileChar) cs = matchAt (lt.map compileChar) cs := by
  induction ls generalizing lt with
  | nil =>
    cases lt with
    | nil => intro cs; rfl
    | cons b bs => simp at h
  | cons a as ih =>
    cases lt with
    | nil => simp at h
    | cons b bs =>
      simp only [List.map_cons, List.cons.injEq] at h
      intro cs
      cases cs with
      | nil => rfl
      | cons c cs' =>
        simp only [List.map_cons, matchAt]
        rw [compileChar_congr a b h.1 c, ih bs h.2 cs']

lemma regexTest_congr (ls lt : List Char) (h : ls.map Char.toLower = lt.map Char.toLower)
    (cs : List Char) :
    regexTest (ls.map compileChar) cs = regexTest (lt.map compileChar) cs := by
  induction cs with
  | nil => simpa [regexTest] using matchAt_congr ls lt h []
  | cons c cs' ih =>
    simp only [regexTest]
    rw [matchAt_congr ls lt h, ih]

lemma compile_no_meta (ls : List Char) (h : ∀ c ∈ ls, isRegexMeta c = false) :
    ls.map compileChar = ls.map RTok.lit := by
  induction ls with
  | nil => rfl
  | cons a as ih =>
    have hmeta := h a (List.mem_cons_self a as)
    have ha : (a == '.') = false := by
      by_contra hc
      simp only [Bool.not_eq_false, beq_iff_eq] at hc
      rw [hc] at hmeta
      exact absurd hmeta (by decide)
    simp [compileChar, ha, ih (fun c hc => h c (List.mem_cons_of_mem a hc))]

lemma matchAt_lit (ls : List Char) :
    ∀ cs, matchAt (ls.map RTok.lit) cs =
      leads (ls.map Char.toLower) (cs.map Char.toLower) := by
  induction ls with
  | nil => intro cs; rfl
  | cons a as ih =>
    intro cs
    cases cs with
    | nil => rfl
    | cons c cs' =>
      simp only [List.map_cons, matchAt, leads, tokMatches, ih cs']

lemma regexTest_lit (ls cs : List Char) :
    regexTest (ls.map RTok.lit) cs =
      occursIn (ls.map Char.toLower) (cs.map Char.toLower) := by
  induction cs with
  | nil => simpa [regexTest, occursIn] using matchAt_lit ls []
  | cons c cs' ih =>
    simp only [List.map_cons, regexTest, occursIn]
    rw [← List.map_cons, matchAt_lit ls (c :: cs'), ih]

/-- A record none of whose searchable fields contains a literal dot. -/
def pDotFree : Patient :=
  { id := 5, fullName := "ab", age := 1, condition := "xq",
    department := "General Ward", status := "Admitted",
    vitals := { heartRate := 0, bloodPressure := "N/A", temperature := 365/10 },
    roomNumber := "z9", notes := none, admissionDate := 50 }

/-- Counterexample to C3 as stated: the non-empty search string `"."` is fed
to `new RegExp` unescaped, so it matches every record with a non-empty field
as a wildcard, although none of the record's fields contains the text `"."`
as a substring. -/
theorem search_dot_is_wildcard_not_substring :
    searchAccepts "." pDotFree = true ∧
    (ciSubstr "." pDotFree.fullName || ciSubstr "." pDotFree.condition ||
      ciSubstr "." pDotFree.roomNumber) = false := by decide

/-- C3 (amended): for every non-empty search string free of regex
metacharacters, the search predicate accepts a record exactly when
`fullName` OR `condition` OR `roomNumber` contains the search text as a
case-insensitive substring; and (on the modelled pattern fragment) the
predicate depends only on the lowercased query, hence is independent of the
query's casing. Search strings containing metacharacters are interpreted as
regular-expression patterns, not literal text. -/
theorem search_is_ci_substring_on_literal_patterns :
    (∀ (s : String) (p : Patient), s ≠ "" → (∀ c ∈ s.data, isRegexMeta c = false) →
      searchAccepts s p = (ciSubstr s p.fullName || ciSubstr s p.condition ||
        ciSubstr s p.roomNumber)) ∧
    (∀ (s t : String) (p : Patient),
      (∀ c ∈ s.data, isRegexMeta c = false ∨ c = '.') →
      (∀ c ∈ t.data, isRegexMeta c = false ∨ c = '.') →
      s.data.map Char.toLower = t.data.map Char.toLower →
      searchAccepts s p = searchAccepts t p) := by
  constructor
  · intro s p _ hmeta
    unfold searchAccepts compileSearch ciSubstr
    rw [compile_no_meta s.data hmeta, regexTest_lit, regexTest_lit, regexTest_lit]
  · intro s t p _ _ h
    unfold searchAccepts compileSearch
    rw [regexTest_congr s.data t.data h, regexTest_congr s.data t.data h,
      regexTest_congr s.data t.data h]

/-- A record whose `fullName` contains "john" case-insensitively. -/
def pJohn : Patient :=
  { id := 4, fullName := "John Smith", age := 41, condition := "checkup",
    department := "General Ward", status := "Admitted",
    vitals := { heartRate := 70, bloodPressure := "118/76", temperature := 365/10 },
    roomNumber := "D4", notes := none, admissionDate := 40 }

/-- Witness for C3 at the spec's own example query. -/
theorem search_is_ci_substring_witness :
    searchAccepts "john" pJohn = (ciSubstr "john" pJohn.fullName ||
      ciSubstr "john" pJohn.condition || ciSubstr "john" pJohn.roomNumber) ∧
    searchAccepts "JOHN" pJohn = searchAccepts "john" pJohn := by
  obtain ⟨h1, h2⟩ := search_is_ci_substring_on_literal_patterns
  exact ⟨h1 "john" pJohn (by decide) (by decide),
    h2 "JOHN" "john" pJohn (by decide) (by decide) (by decide)⟩
